import Mathlib

/-!
Verification of the authentication and favorites subsystem of
`node-postgres-api` (`src/index.js`).

JavaScript strings are embedded as `List Char`; the external collaborators
(the `jsonwebtoken`, `bcryptjs` and `pg` libraries) are modelled by concrete
executable functions faithful to their documented contracts, and the four
route handlers plus the `authMiddleware` from `src/index.js` are translated
directly.
-/

/-- JavaScript strings, embedded as lists of characters. -/
abbrev JStr := List Char

/-- Coerce a Lean string literal into the embedding. -/
def jstr (s : String) : JStr := s.toList

/-- JavaScript truthiness of an optional string value: `undefined` and the
empty string are falsy, every other string is truthy. -/
def truthy : Option JStr → Bool
  | none => false
  | some s => !s.isEmpty

/-- JavaScript `String.prototype.split` with a one-character separator:
splits at every occurrence of the separator, keeping empty segments
(`"a  b".split(" ") = ["a", "", "b"]`, `"".split(" ") = [""]`). -/
def splitChar (sep : Char) : JStr → List JStr
  | [] => [[]]
  | c :: cs =>
    match splitChar sep cs with
    | [] => [[]]
    | seg :: rest => if c = sep then [] :: seg :: rest else (c :: seg) :: rest

/-- JavaScript `String.prototype.startsWith`: `jsStartsWith s p` is true when
`p` is an initial segment of `s`. -/
def jsStartsWith : JStr → JStr → Bool
  | _, [] => true
  | [], _ :: _ => false
  | c :: s, p :: ps => c == p && jsStartsWith s ps

/-- A thrown JavaScript error object, with its `name` and `message` fields. -/
structure JsError where
  name : JStr
  message : JStr
deriving DecidableEq, Repr

/-- The claims carried by a JSON web token in this application: the bound
`userId` and the optional `exp` (expiry) claim. -/
structure JwtPayload where
  userId : Nat
  exp : Option Nat
deriving DecidableEq, Repr

/-- A signed token before serialisation: a payload together with the
signature material, which is determined by the signing secret. -/
structure SignedToken where
  payload : JwtPayload
  sig : JStr
deriving DecidableEq, Repr

/-- Model of `jwt.sign({ userId }, secret)` as called at `src/index.js`
lines 95 and 132: no options are passed, so no `exp` claim is set, and the
signature is determined by the process-wide secret. -/
def jwtSign (userId : Nat) (secret : JStr) : SignedToken :=
  { payload := { userId := userId, exp := none }, sig := secret }

/-- Unary rendering of a natural number (used by the token serialisation;
its alphabet is the single character `1`). -/
def natUnary (n : Nat) : JStr := List.replicate n '1'

/-- Injective, space-free and comma-free serialisation of a string: each
character becomes its code point in unary followed by a dot. -/
def encStr : JStr → JStr
  | [] => []
  | c :: cs => natUnary c.toNat ++ '.' :: encStr cs

/-- Serialisation of the optional expiry claim: `n` for absent,
`e` followed by the unary time for present. -/
def encExp : Option Nat → JStr
  | none => ['n']
  | some e => 'e' :: natUnary e

/-- Serialisation of a signed token into the compact string carried in the
`Authorization` header: three comma-separated segments (userId, expiry
claim, signature), none of which contains a space or a comma. -/
def encodeToken (t : SignedToken) : JStr :=
  natUnary t.payload.userId ++ ',' :: encExp t.payload.exp ++ ',' :: encStr t.sig

/-- Read an expiry segment back into the optional `exp` claim. -/
def parseExpClaim : JStr → Option Nat
  | 'n' :: _ => none
  | 'e' :: rest => some rest.length
  | _ => none

/-- The error thrown by `jwt.verify` on a structurally invalid token. -/
def jwtMalformedError : JsError :=
  { name := jstr "JsonWebTokenError", message := jstr "jwt malformed" }

/-- The error thrown by `jwt.verify` on a signature mismatch. -/
def jwtInvalidSigError : JsError :=
  { name := jstr "JsonWebTokenError", message := jstr "invalid signature" }

/-- The error thrown by `jwt.verify` on an expired token. -/
def jwtExpiredError : JsError :=
  { name := jstr "TokenExpiredError", message := jstr "jwt expired" }

/-- Model of `jwt.verify(tokenStr, secret)` as called at `src/index.js`
line 55: the token string is decoded into its three segments (malformed
tokens throw `JsonWebTokenError`), the signature segment is checked against
the secret (mismatch throws `JsonWebTokenError`), and a present expiry
claim in the past throws `TokenExpiredError`; otherwise the decoded payload
is returned. -/
def jwtVerifyStr (s : JStr) (secret : JStr) (now : Nat) : Except JsError JwtPayload :=
  match splitChar ',' s with
  | [uidPart, expPart, sigPart] =>
    if sigPart = encStr secret then
      match parseExpClaim expPart with
      | some e =>
        if e ≤ now then .error jwtExpiredError
        else .ok { userId := uidPart.length, exp := some e }
      | none => .ok { userId := uidPart.length, exp := none }
    else .error jwtInvalidSigError
  | _ => .error jwtMalformedError

/-- A JSON response body sent by this application: either an object whose
`message` field is a string literal, or — only in the middleware's generic
catch branch — an object whose `message` field is the raw error object. -/
inductive RespBody where
  | jsonMsg : JStr → RespBody
  | jsonErr : JsError → RespBody
deriving DecidableEq, Repr

/-- Terminal outcome of `authMiddleware` on one request: a rejection with a
status code and body, or authorization with the `userId` attached to the
request object (`req.userId = decoded.userId`, line 61). -/
inductive AuthOutcome where
  | reject : Nat → RespBody → AuthOutcome
  | authorized : Nat → AuthOutcome
deriving DecidableEq, Repr

/-- The scheme the middleware requires at line 39: the string `Bearer `
(capital B, trailing space). -/
def bearerScheme : JStr := ['B', 'e', 'a', 'r', 'e', 'r', ' ']

/-- `token.split(' ')[1]` at `src/index.js` line 45, with JavaScript's
`undefined` from an out-of-range index merged into the empty string (both
are falsy at the `!tokenStr` check on line 48). -/
def extractedToken (header : JStr) : JStr :=
  (splitChar ' ' header).getD 1 []

/-- The `try`/`catch` around `jwt.verify` at `src/index.js` lines 53-73:
success attaches the decoded `userId` and passes control on; a
`TokenExpiredError` yields 401 with a fixed message; any other error yields
401 with the raw error object as the `message` field. -/
def verifyOutcome (verify : JStr → Except JsError JwtPayload) (tokenStr : JStr) : AuthOutcome :=
  match verify tokenStr with
  | .ok decoded => .authorized decoded.userId
  | .error e =>
    if e.name = jstr "TokenExpiredError" then
      .reject 401 (.jsonMsg (jstr "Token expirado."))
    else
      .reject 401 (.jsonErr e)

/-- `authMiddleware` from `src/index.js` lines 28-74, parameterised by the
verification function used in the `try` block. The `authorization` header
is either absent (`none`) or a string; `if (!token)` treats an absent
header and an empty header string alike. -/
def authMiddleware (verify : JStr → Except JsError JwtPayload)
    (header : Option JStr) : AuthOutcome :=
  let token := header.getD []
  if token.isEmpty then
    .reject 403 (.jsonMsg (jstr "Token de autenticação não fornecido."))
  else if !(jsStartsWith token bearerScheme) then
    .reject 400 (.jsonMsg (jstr "Token malformado. Formato esperado: Bearer <token>"))
  else
    let tokenStr := extractedToken token
    if tokenStr.isEmpty then
      .reject 400 (.jsonMsg (jstr "Token malformado."))
    else
      verifyOutcome verify tokenStr

/-- The middleware composed with the concrete token verification model:
`jwt.verify(tokenStr, process.env.JWT_SECRET)` with the process secret and
the current time. -/
def authMiddlewareJwt (secret : JStr) (now : Nat) (header : Option JStr) : AuthOutcome :=
  authMiddleware (fun s => jwtVerifyStr s secret now) header

/-- A row of the `users` table: store-assigned id, name, email, and the
bcrypt digest stored in the `password` column. -/
structure UserRow where
  id : Nat
  name : JStr
  email : JStr
  password : JStr
deriving DecidableEq, Repr

/-- A row of the `favorites` table. -/
structure FavRow where
  userId : Nat
  name : JStr
  pokeId : JStr
deriving DecidableEq, Repr

/-- The PostgreSQL store reached through `pool.query`: the two tables, the
next serial id for `users`, and an optional infrastructure fault — when
`fault` is set, every query against the pool throws that error. -/
structure Db where
  users : List UserRow
  favorites : List FavRow
  nextId : Nat
  fault : Option JsError
deriving DecidableEq, Repr

/-- Run a read-only query against the pool: an injected infrastructure
fault is thrown, otherwise the rows are computed from the tables. -/
def runQuery {α : Type} (db : Db) (q : Db → α) : Except JsError α :=
  match db.fault with
  | some e => .error e
  | none => .ok (q db)

/-- The store-level error for a violated `users.email` uniqueness
constraint. -/
def dupEmailError : JsError :=
  { name := jstr "error", message := jstr "duplicate key value violates unique constraint" }

/-- `INSERT INTO users (name, email, password) VALUES ($1, $2, $3)
RETURNING *` (`src/index.js` lines 88-91): throws on an injected fault or
a duplicate email, otherwise appends the row with the next serial id and
returns it. -/
def insertUser (db : Db) (nm em pw : JStr) : Except JsError (UserRow × Db) :=
  match db.fault with
  | some e => .error e
  | none =>
    if db.users.any (fun u => u.email = em) then .error dupEmailError
    else
      let row : UserRow := { id := db.nextId, name := nm, email := em, password := pw }
      .ok (row, { db with users := db.users ++ [row], nextId := db.nextId + 1 })

/-- Model of `bcrypt.hash(password, 10)` (`src/index.js` line 86): a salted
one-way digest; the model tags the plaintext so that `bcryptCompare`
recognises exactly the digests of the same plaintext. -/
def bcryptHash (plain : JStr) : JStr := jstr "bcrypt-digest:" ++ plain

/-- Model of `bcrypt.compare(plain, digest)` (`src/index.js` line 125):
true exactly when the digest was produced from the same plaintext. -/
def bcryptCompare (plain digest : JStr) : Bool := digest = bcryptHash plain

/-- The JSON response of one handler invocation: HTTP status, body
`message` field, and the optional `token`, `userId` and `favorite` fields
some success bodies carry. -/
structure Resp where
  status : Nat
  body : RespBody
  token : Option JStr
  userId : Option Nat
  favorite : Option FavRow
deriving DecidableEq, Repr

/-- A response consisting only of a status and a `message` string. -/
def msgResp (status : Nat) (m : String) : Resp :=
  { status := status, body := .jsonMsg (jstr m), token := none, userId := none, favorite := none }

/-- The `try` block of the register handler (`src/index.js` lines 85-101):
hash the password, insert the user row, sign a token for the new id, and
answer 201 with message, token and userId. -/
def registerTry (secret : JStr) (db : Db) (nm em pw : JStr) :
    Except JsError (Resp × Db) :=
  let hashPassword := bcryptHash pw
  match insertUser db nm em hashPassword with
  | .error e => .error e
  | .ok (user, db') =>
    let token := encodeToken (jwtSign user.id secret)
    .ok ({ status := 201, body := .jsonMsg (jstr "Usuário registrado com sucesso"),
           token := some token, userId := some user.id, favorite := none }, db')

/-- The `POST /api/auth/register` handler (`src/index.js` lines 77-106):
missing or empty fields answer 400 before any store access; otherwise the
`try` block runs and any thrown error is caught and mapped to a generic
500. -/
def registerHandler (secret : JStr) (db : Db) (nm em pw : Option JStr) : Resp × Db :=
  if !(truthy nm) || !(truthy em) || !(truthy pw) then
    (msgResp 400 "Todos os campos são obrigatórios.", db)
  else
    match registerTry secret db (nm.getD []) (em.getD []) (pw.getD []) with
    | .error _ => (msgResp 500 "Erro ao registrar usuário.", db)
    | .ok r => r

/-- The `try` block of the login handler (`src/index.js` lines 116-138):
`SELECT * FROM users WHERE email = $1`, take `rows[0]`; no row answers
404, a failed password comparison answers 400, and a match signs a token
and answers 200 with message, token and userId. -/
def loginTry (secret : JStr) (db : Db) (em pw : JStr) :
    Except JsError (Resp × Db) :=
  match runQuery db (fun d => d.users.filter (fun u => u.email = em)) with
  | .error e => .error e
  | .ok rows =>
    match rows.head? with
    | none => .ok (msgResp 404 "Usuário não encontrado.", db)
    | some user =>
      if !(bcryptCompare pw user.password) then
        .ok (msgResp 400 "Senha incorreta.", db)
      else
        let token := encodeToken (jwtSign user.id secret)
        .ok ({ status := 200, body := .jsonMsg (jstr "Login bem-sucedido"),
               token := some token, userId := some user.id, favorite := none }, db)

/-- The `POST /api/auth/login` handler (`src/index.js` lines 109-143):
missing or empty fields answer 400 before any store access; otherwise the
`try` block runs and any thrown error is caught and mapped to a generic
500. -/
def loginHandler (secret : JStr) (db : Db) (em pw : Option JStr) : Resp × Db :=
  if !(truthy em) || !(truthy pw) then
    (msgResp 400 "Todos os campos são obrigatórios.", db)
  else
    match loginTry secret db (em.getD []) (pw.getD []) with
    | .error _ => (msgResp 500 "Erro ao fazer login.", db)
    | .ok r => r

/-- A parameter value passed to `pool.query`. -/
inductive SqlVal where
  | nat : Nat → SqlVal
  | str : JStr → SqlVal
deriving DecidableEq, Repr

/-- The target-column list of the INSERT statement at `src/index.js`
line 168: `INSERT INTO favorites (user_id, name, poke_id)
VALUES ($1, $2) RETURNING *` names three columns. -/
def favoritesInsertTargets : List String := ["user_id", "name", "poke_id"]

/-- Model of PostgreSQL executing the `favorites` INSERT: an injected
fault is thrown; a statement whose target-column list and VALUES list
differ in length is rejected by the server; otherwise the row is appended
and returned. -/
def pgInsertFavorite (db : Db) (targets : List String) (exprs : List SqlVal) :
    Except JsError (FavRow × Db) :=
  match db.fault with
  | some e => .error e
  | none =>
    if targets.length ≠ exprs.length then
      .error { name := jstr "error",
               message := jstr "INSERT has more target columns than expressions" }
    else
      match exprs with
      | [.nat u, .str n, .str p] =>
        let row : FavRow := { userId := u, name := n, pokeId := p }
        .ok (row, { db with favorites := db.favorites ++ [row] })
      | _ => .error { name := jstr "error", message := jstr "could not determine data type" }

/-- The `try` block of the add-favorite handler (`src/index.js` lines
155-176): check for an existing favorite with the same user and name
(answering 400), then run the INSERT — which supplies only the two
parameters `[userId, name]` for its three target columns — and answer 201
with the created row. -/
def postFavoritesTry (db : Db) (userId : Nat) (nm : JStr) :
    Except JsError (Resp × Db) :=
  match runQuery db (fun d => d.favorites.filter (fun f => f.userId = userId && f.name = nm)) with
  | .error e => .error e
  | .ok rows =>
    if rows.length > 0 then
      .ok (msgResp 400 "Este item já foi favoritado.", db)
    else
      match pgInsertFavorite db favoritesInsertTargets [.nat userId, .str nm] with
      | .error e => .error e
      | .ok (row, db') =>
        .ok ({ status := 201, body := .jsonMsg (jstr "Favorito adicionado com sucesso."),
               token := none, userId := some userId, favorite := some row }, db')

/-- The `POST /api/favorites` handler (`src/index.js` lines 146-181),
running after `authMiddleware` with the attached `userId`: missing or
empty body fields answer 400; otherwise the `try` block runs and any
thrown error is caught and mapped to a generic 500. -/
def postFavoritesHandler (db : Db) (userId : Nat) (nm pokeId : Option JStr) : Resp × Db :=
  if !(truthy nm) || !(truthy pokeId) then
    (msgResp 400 "O nome do pokemon favorito e ID é obrigatório.", db)
  else
    match postFavoritesTry db userId (nm.getD []) with
    | .error _ => (msgResp 500 "Erro ao adicionar favorito.", db)
    | .ok r => r

/-- The identifiers bound in scope at `src/index.js` line 208, with their
string values where the handler binds one: the module-level bindings of
`index.js` and the DELETE handler's own `req`, `res`, `poke_id` (from
`req.params.id`) and `userId`. The name `id` is not among them. -/
def deleteHandlerEnv (paramId : JStr) : List (String × JStr) :=
  [("require", []), ("express", []), ("Pool", []), ("bcrypt", []), ("jwt", []),
   ("cors", []), ("app", []), ("port", []), ("pool", []), ("authMiddleware", []),
   ("req", []), ("res", []), ("poke_id", paramId), ("userId", [])]

/-- Evaluation of a JavaScript identifier: an unbound name throws a
`ReferenceError`. -/
def jsLookup (env : List (String × JStr)) (x : String) : Except JsError JStr :=
  match env.find? (fun p => p.fst = x) with
  | some p => .ok p.snd
  | none => .error { name := jstr "ReferenceError", message := (x ++ " is not defined").toList }

/-- The `try` block of the delete-favorite handler (`src/index.js` lines
205-219): evaluating the parameter array `[id, userId]` of the DELETE
query at line 208 references the unbound identifier `id` (the handler
bound `poke_id`, not `id`), then the query would delete the matching rows,
answering 404 when none matched and 200 with the removed row otherwise. -/
def deleteFavoritesTry (db : Db) (userId : Nat) (paramId : JStr) :
    Except JsError (Resp × Db) :=
  match jsLookup (deleteHandlerEnv paramId) "id" with
  | .error e => .error e
  | .ok idVal =>
    match runQuery db
      (fun d => d.favorites.filter (fun f => f.pokeId = idVal && f.userId = userId)) with
    | .error e => .error e
    | .ok rows =>
      match rows.head? with
      | none => .ok (msgResp 404 "Favorito não encontrado.", db)
      | some row =>
        let remaining := db.favorites.filter (fun f => !(f.pokeId = idVal && f.userId = userId))
        .ok ({ status := 200, body := .jsonMsg (jstr "Favorito removido com sucesso."),
               token := none, userId := some userId, favorite := some row },
             { db with favorites := remaining })

/-- The `DELETE /api/favorites/:id` handler (`src/index.js` lines
201-224), running after `authMiddleware`: the `try` block runs and any
thrown error is caught and mapped to a generic 500. -/
def deleteFavoritesHandler (db : Db) (userId : Nat) (paramId : JStr) : Resp × Db :=
  match deleteFavoritesTry db userId paramId with
  | .error _ => (msgResp 500 "Erro ao remover favorito.", db)
  | .ok r => r

/-! ### Lemmas about the string split used by the middleware -/

theorem splitChar_ne_nil (sep : Char) (l : JStr) : splitChar sep l ≠ [] := by
  cases l with
  | nil => simp [splitChar]
  | cons c cs =>
    simp only [splitChar]
    cases h : splitChar sep cs with
    | nil => simp
    | cons seg rest =>
      by_cases hc : c = sep <;> simp [hc]

theorem splitChar_cons_sep (sep : Char) (ys : JStr) :
    splitChar sep (sep :: ys) = [] :: splitChar sep ys := by
  simp only [splitChar]
  cases h : splitChar sep ys with
  | nil => exact absurd h (splitChar_ne_nil sep ys)
  | cons seg rest => simp

theorem splitChar_cons_ne (sep c : Char) (hc : c ≠ sep) (ys : JStr) :
    splitChar sep (c :: ys) =
      (c :: (splitChar sep ys).headD []) :: (splitChar sep ys).tail := by
  simp only [splitChar]
  cases h : splitChar sep ys with
  | nil => exact absurd h (splitChar_ne_nil sep ys)
  | cons seg rest => simp [hc]

theorem splitChar_append_cons (sep : Char) (xs ys : JStr) (hx : sep ∉ xs) :
    splitChar sep (xs ++ sep :: ys) = xs :: splitChar sep ys := by
  induction xs with
  | nil => simpa using splitChar_cons_sep sep ys
  | cons c cs ih =>
    have hc : c ≠ sep := by rintro rfl; exact hx (List.mem_cons_self ..)
    have hcs : sep ∉ cs := fun h => hx (List.mem_cons_of_mem _ h)
    rw [List.cons_append, splitChar_cons_ne sep c hc, ih hcs]
    simp

theorem splitChar_of_not_mem (sep : Char) (l : JStr) (h : sep ∉ l) :
    splitChar sep l = [l] := by
  induction l with
  | nil => rfl
  | cons c cs ih =>
    have hc : c ≠ sep := by rintro rfl; exact h (List.mem_cons_self ..)
    have hcs : sep ∉ cs := fun hm => h (List.mem_cons_of_mem _ hm)
    rw [splitChar_cons_ne sep c hc, ih hcs]
    simp

theorem splitChar_headD (sep : Char) (l : JStr) :
    (splitChar sep l).headD [] = l.takeWhile (fun c => c != sep) := by
  induction l with
  | nil => rfl
  | cons c cs ih =>
    by_cases hc : c = sep
    · subst hc
      rw [splitChar_cons_sep]
      simp [List.takeWhile_cons]
    · rw [splitChar_cons_ne sep c hc, List.headD_cons, ih]
      simp [List.takeWhile_cons, hc]

theorem takeWhile_of_no_space {l : JStr} (h : ' ' ∉ l) :
    l.takeWhile (fun c => c != ' ') = l := by
  induction l with
  | nil => rfl
  | cons c cs ih =>
    have hc : c ≠ ' ' := by rintro rfl; exact h (List.mem_cons_self ..)
    have hcs : ' ' ∉ cs := fun hm => h (List.mem_cons_of_mem _ hm)
    simp [List.takeWhile_cons, hc, ih hcs]

theorem jsStartsWith_append (xs ys : JStr) : jsStartsWith (xs ++ ys) xs = true := by
  induction xs with
  | nil => cases ys <;> rfl
  | cons c cs ih => simp [jsStartsWith, ih]

theorem getD_one_eq_headD_tail {α : Type} (a : α) (l : List α) (d : α) :
    (a :: l).getD 1 d = l.headD d := by
  cases l <;> rfl

/-! ### Lemmas about the token serialisation -/

theorem mem_natUnary {c : Char} {n : Nat} (h : c ∈ natUnary n) : c = '1' :=
  List.eq_of_mem_replicate h

theorem mem_encStr {c : Char} {l : JStr} (h : c ∈ encStr l) : c = '1' ∨ c = '.' := by
  induction l with
  | nil => simp [encStr] at h
  | cons x xs ih =>
    simp only [encStr] at h
    rcases List.mem_append.mp h with h1 | h2
    · exact Or.inl (mem_natUnary h1)
    · rcases List.mem_cons.mp h2 with h3 | h4
      · exact Or.inr h3
      · exact ih h4

theorem mem_encExp {c : Char} {e : Option Nat} (h : c ∈ encExp e) :
    c = 'n' ∨ c = 'e' ∨ c = '1' := by
  cases e with
  | none =>
    simp [encExp] at h
    exact Or.inl h
  | some t =>
    simp only [encExp] at h
    rcases List.mem_cons.mp h with h1 | h2
    · exact Or.inr (Or.inl h1)
    · exact Or.inr (Or.inr (mem_natUnary h2))

theorem comma_not_mem_encExp (e : Option Nat) : ',' ∉ encExp e := fun h => by
  rcases mem_encExp h with h1 | h1 | h1 <;> simp at h1

theorem splitChar_encodeToken (t : SignedToken) :
    splitChar ',' (encodeToken t) =
      [natUnary t.payload.userId, encExp t.payload.exp, encStr t.sig] := by
  have h1 : ',' ∉ natUnary t.payload.userId := fun h =>
    absurd (mem_natUnary h) (by decide)
  have h3 : ',' ∉ encStr t.sig := fun h => by
    rcases mem_encStr h with h4 | h4 <;> simp at h4
  rw [encodeToken, List.append_assoc, List.cons_append, splitChar_append_cons _ _ _ h1,
      splitChar_append_cons _ _ _ (comma_not_mem_encExp _),
      splitChar_of_not_mem _ _ h3]

theorem space_not_mem_encodeToken (t : SignedToken) : ' ' ∉ encodeToken t := by
  intro h
  rw [encodeToken, List.append_assoc, List.cons_append] at h
  simp only [List.mem_append, List.mem_cons] at h
  rcases h with h1 | h1 | h1 | h1 | h1
  · exact absurd (mem_natUnary h1) (by decide)
  · simp at h1
  · rcases mem_encExp h1 with h2 | h2 | h2 <;> simp at h2
  · simp at h1
  · rcases mem_encStr h1 with h2 | h2 <;> simp at h2

theorem encodeToken_ne_nil (t : SignedToken) : encodeToken t ≠ [] := by
  intro h
  have h2 := splitChar_encodeToken t
  rw [h] at h2
  simp [splitChar] at h2

theorem jwtVerifyStr_sign (userId : Nat) (secret : JStr) (now : Nat) :
    jwtVerifyStr (encodeToken (jwtSign userId secret)) secret now =
      .ok { userId := userId, exp := none } := by
  rw [jwtVerifyStr, splitChar_encodeToken]
  simp [jwtSign, parseExpClaim, encExp, natUnary]

/-! ### Lemmas about the middleware on well-formed bearer headers -/

theorem splitChar_bearer (rest : JStr) :
    splitChar ' ' (bearerScheme ++ rest) =
      ['B', 'e', 'a', 'r', 'e', 'r'] :: splitChar ' ' rest := by
  have h : bearerScheme ++ rest = ['B', 'e', 'a', 'r', 'e', 'r'] ++ ' ' :: rest := rfl
  rw [h, splitChar_append_cons ' ' _ _ (by decide)]

theorem extractedToken_bearer (rest : JStr) :
    extractedToken (bearerScheme ++ rest) = rest.takeWhile (fun c => c != ' ') := by
  rw [extractedToken, splitChar_bearer, getD_one_eq_headD_tail, splitChar_headD]

theorem authMiddleware_bearer (verify : JStr → Except JsError JwtPayload) (t : SignedToken) :
    authMiddleware verify (some (bearerScheme ++ encodeToken t)) =
      verifyOutcome verify (encodeToken t) := by
  have hx : extractedToken (bearerScheme ++ encodeToken t) = encodeToken t := by
    rw [extractedToken_bearer, takeWhile_of_no_space (space_not_mem_encodeToken t)]
  have h1 : (bearerScheme ++ encodeToken t).isEmpty = false := by
    simp [bearerScheme]
  have h2 : jsStartsWith (bearerScheme ++ encodeToken t) bearerScheme = true :=
    jsStartsWith_append _ _
  have h3 : (encodeToken t).isEmpty = false := by
    simp [List.isEmpty_iff, encodeToken_ne_nil t]
  simp only [authMiddleware, Option.getD_some, h1, h2, hx, h3]
  simp

theorem authMiddlewareJwt_sign (secret : JStr) (now uid : Nat) :
    authMiddlewareJwt secret now (some (bearerScheme ++ encodeToken (jwtSign uid secret))) =
      .authorized uid := by
  rw [authMiddlewareJwt, authMiddleware_bearer]
  simp [verifyOutcome, jwtVerifyStr_sign]

/-! ### Computation and inversion lemmas for the handlers -/

/-- The user row created by a successful registration. -/
def newUserRow (db : Db) (nm em pw : JStr) : UserRow :=
  { id := db.nextId, name := nm, email := em, password := bcryptHash pw }

/-- The store state after a successful registration. -/
def registerSuccessDb (db : Db) (nm em pw : JStr) : Db :=
  { db with users := db.users ++ [newUserRow db nm em pw], nextId := db.nextId + 1 }

/-- The 201 response of a successful registration. -/
def registerSuccessResp (secret : JStr) (db : Db) : Resp :=
  { status := 201, body := .jsonMsg (jstr "Usuário registrado com sucesso"),
    token := some (encodeToken (jwtSign db.nextId secret)),
    userId := some db.nextId, favorite := none }

theorem registerTry_of_fresh (secret : JStr) (db : Db) (nm em pw : JStr)
    (hf : db.fault = none) (hd : (db.users.any fun u => u.email = em) = false) :
    registerTry secret db nm em pw =
      .ok (registerSuccessResp secret db, registerSuccessDb db nm em pw) := by
  simp only [registerTry, insertUser, hf, hd, registerSuccessResp, registerSuccessDb, newUserRow]
  simp

theorem registerHandler_success (secret : JStr) (db : Db) (nm em pw : Option JStr) (a : Nat)
    (h : ((registerHandler secret db nm em pw).1).userId = some a) :
    truthy nm = true ∧ truthy em = true ∧ truthy pw = true ∧
    db.fault = none ∧ (db.users.any fun u => u.email = em.getD []) = false ∧
    a = db.nextId ∧
    registerHandler secret db nm em pw =
      (registerSuccessResp secret db,
       registerSuccessDb db (nm.getD []) (em.getD []) (pw.getD [])) := by
  by_cases hv : (!(truthy nm) || !(truthy em) || !(truthy pw)) = true
  · rw [registerHandler, if_pos hv] at h
    simp [msgResp] at h
  · have hts : (truthy nm = true ∧ truthy em = true) ∧ truthy pw = true := by
      simpa [not_or] using hv
    cases hf : db.fault with
    | some e =>
      have hrt : registerTry secret db (nm.getD []) (em.getD []) (pw.getD []) = .error e := by
        simp only [registerTry, insertUser, hf]
      rw [registerHandler, if_neg hv, hrt] at h
      simp [msgResp] at h
    | none =>
      cases hd : (db.users.any fun u => u.email = em.getD []) with
      | true =>
        have hrt : registerTry secret db (nm.getD []) (em.getD []) (pw.getD []) =
            .error dupEmailError := by
          simp only [registerTry, insertUser, hf, hd]
          simp
        rw [registerHandler, if_neg hv, hrt] at h
        simp [msgResp] at h
      | false =>
        have hrt := registerTry_of_fresh secret db (nm.getD []) (em.getD []) (pw.getD []) hf hd
        rw [registerHandler, if_neg hv, hrt] at h
        have ha : a = db.nextId := by
          simpa [registerSuccessResp] using h.symm
        refine ⟨hts.1.1, hts.1.2, hts.2, rfl, rfl, ha, ?_⟩
        rw [registerHandler, if_neg hv, hrt]

theorem loginHandler_of_store (secret : JStr) (db : Db) (em pw : Option JStr)
    (hem : truthy em = true) (hpw : truthy pw = true) (hf : db.fault = none) :
    loginHandler secret db em pw =
      match (db.users.filter fun u => u.email = em.getD []).head? with
      | none => (msgResp 404 "Usuário não encontrado.", db)
      | some user =>
        if !(bcryptCompare (pw.getD []) user.password) then
          (msgResp 400 "Senha incorreta.", db)
        else
          ({ status := 200, body := .jsonMsg (jstr "Login bem-sucedido"),
             token := some (encodeToken (jwtSign user.id secret)),
             userId := some user.id, favorite := none }, db) := by
  rw [loginHandler, if_neg (by simp [hem, hpw])]
  simp only [loginTry, runQuery, hf]
  cases hh : (db.users.filter fun u => u.email = em.getD []).head? with
  | none => simp
  | some user =>
    by_cases hc : bcryptCompare (pw.getD []) user.password
    · simp [hc]
    · simp [hc]

/-! ### Claim theorems -/

/-- A verification function that always fails with a malformed-token error. -/
def failVerify : JStr → Except JsError JwtPayload := fun _ => .error jwtMalformedError

/-- A verification function that always fails with an expired-token error. -/
def expiredVerify : JStr → Except JsError JwtPayload := fun _ => .error jwtExpiredError

/-- A verification function that always succeeds with userId 7. -/
def okVerify : JStr → Except JsError JwtPayload := fun _ => .ok { userId := 7, exp := none }

/-- **C1 (counterexample)**: the claim's order of precedence says that a
present header which does not start with `Bearer ` is answered 400; but on
the present-and-empty header the middleware answers 403, because line 33
tests JavaScript truthiness (`if (!token)`), which catches the empty
string as well as an absent header. -/
theorem c1_counterexample :
    (some (jstr "") : Option JStr) ≠ none ∧
    jsStartsWith (jstr "") bearerScheme = false ∧
    authMiddleware failVerify (some (jstr "")) =
      .reject 403 (.jsonMsg (jstr "Token de autenticação não fornecido.")) ∧
    (403 : Nat) ≠ 400 := by
  refine ⟨by simp, by decide, by decide, by decide⟩

/-- **C1 (amended)**: for every inbound request to a protected route the
Auth Gate decides in this order of precedence: if the authorization header
is absent or the empty string it responds 403; otherwise if the header does
not start with `Bearer ` it responds 400; otherwise if the token body after
the scheme and separator is empty it responds 400; otherwise if
verification fails with an expired-token error it responds 401; otherwise
if verification fails for any other reason it responds 401; only when
verification succeeds does control pass on, with the decoded userId. -/
theorem c1_authGate_precedence (verify : JStr → Except JsError JwtPayload)
    (header : Option JStr) :
    (truthy header = false →
      authMiddleware verify header =
        .reject 403 (.jsonMsg (jstr "Token de autenticação não fornecido."))) ∧
    (∀ h, header = some h → truthy header = true →
      jsStartsWith h bearerScheme = false →
      authMiddleware verify header =
        .reject 400 (.jsonMsg (jstr "Token malformado. Formato esperado: Bearer <token>"))) ∧
    (∀ h, header = some h → truthy header = true →
      jsStartsWith h bearerScheme = true → extractedToken h = [] →
      authMiddleware verify header = .reject 400 (.jsonMsg (jstr "Token malformado."))) ∧
    (∀ h e, header = some h → truthy header = true →
      jsStartsWith h bearerScheme = true → extractedToken h ≠ [] →
      verify (extractedToken h) = .error e → e.name = jstr "TokenExpiredError" →
      authMiddleware verify header = .reject 401 (.jsonMsg (jstr "Token expirado."))) ∧
    (∀ h e, header = some h → truthy header = true →
      jsStartsWith h bearerScheme = true → extractedToken h ≠ [] →
      verify (extractedToken h) = .error e → e.name ≠ jstr "TokenExpiredError" →
      authMiddleware verify header = .reject 401 (.jsonErr e)) ∧
    (∀ h p, header = some h → truthy header = true →
      jsStartsWith h bearerScheme = true → extractedToken h ≠ [] →
      verify (extractedToken h) = .ok p →
      authMiddleware verify header = .authorized p.userId) := by
  refine ⟨?_, ?_, ?_, ?_, ?_, ?_⟩
  · intro ht
    cases header with
    | none => rfl
    | some s =>
      have hs : s.isEmpty = true := by simpa [truthy] using ht
      simp [authMiddleware, hs]
  · rintro h rfl ht hb
    have hs : h.isEmpty = false := by simpa [truthy] using ht
    simp [authMiddleware, hs, hb]
  · rintro h rfl ht hb hx
    have hs : h.isEmpty = false := by simpa [truthy] using ht
    simp [authMiddleware, hs, hb, hx]
  · rintro h e rfl ht hb hx hver he
    have hs : h.isEmpty = false := by simpa [truthy] using ht
    have hx2 : (extractedToken h).isEmpty = false := by
      simpa [List.isEmpty_iff] using hx
    simp [authMiddleware, verifyOutcome, hs, hb, hx2, hver, he]
  · rintro h e rfl ht hb hx hver he
    have hs : h.isEmpty = false := by simpa [truthy] using ht
    have hx2 : (extractedToken h).isEmpty = false := by
      simpa [List.isEmpty_iff] using hx
    simp [authMiddleware, verifyOutcome, hs, hb, hx2, hver, he]
  · rintro h p rfl ht hb hx hver
    have hs : h.isEmpty = false := by simpa [truthy] using ht
    have hx2 : (extractedToken h).isEmpty = false := by
      simpa [List.isEmpty_iff] using hx
    simp [authMiddleware, verifyOutcome, hs, hb, hx2, hver]

/-- Witness for the amended C1: each branch exercised on a concrete
request. -/
theorem c1_authGate_precedence_witness :
    authMiddleware failVerify none =
      .reject 403 (.jsonMsg (jstr "Token de autenticação não fornecido.")) ∧
    authMiddleware failVerify (some (jstr "Basic abc")) =
      .reject 400 (.jsonMsg (jstr "Token malformado. Formato esperado: Bearer <token>")) ∧
    authMiddleware failVerify (some (jstr "Bearer ")) =
      .reject 400 (.jsonMsg (jstr "Token malformado.")) ∧
    authMiddleware expiredVerify (some (jstr "Bearer x")) =
      .reject 401 (.jsonMsg (jstr "Token expirado.")) ∧
    authMiddleware failVerify (some (jstr "Bearer x")) =
      .reject 401 (.jsonErr jwtMalformedError) ∧
    authMiddleware okVerify (some (jstr "Bearer x")) = .authorized 7 :=
  ⟨(c1_authGate_precedence failVerify none).1 (by decide),
   (c1_authGate_precedence failVerify (some (jstr "Basic abc"))).2.1
     (jstr "Basic abc") rfl (by decide) (by decide),
   (c1_authGate_precedence failVerify (some (jstr "Bearer "))).2.2.1
     (jstr "Bearer ") rfl (by decide) (by decide) (by decide),
   (c1_authGate_precedence expiredVerify (some (jstr "Bearer x"))).2.2.2.1
     (jstr "Bearer x") jwtExpiredError rfl (by decide) (by decide) (by decide) rfl (by decide),
   (c1_authGate_precedence failVerify (some (jstr "Bearer x"))).2.2.2.2.1
     (jstr "Bearer x") jwtMalformedError rfl (by decide) (by decide) (by decide) rfl (by decide),
   (c1_authGate_precedence okVerify (some (jstr "Bearer x"))).2.2.2.2.2
     (jstr "Bearer x") { userId := 7, exp := none } rfl (by decide) (by decide) (by decide) rfl⟩

/-- **C2**: a token the Token Issuer signs for user identifier `a`, when
presented to the Auth Gate in a `Bearer` header, authorizes the request
with exactly `a` attached as the request's user identifier, and never as
any other identifier `b`. -/
theorem c2_token_binding (secret : JStr) (now : Nat) (a : Nat) :
    authMiddlewareJwt secret now
      (some (bearerScheme ++ encodeToken (jwtSign a secret))) = .authorized a ∧
    ∀ b : Nat, b ≠ a →
      authMiddlewareJwt secret now
        (some (bearerScheme ++ encodeToken (jwtSign a secret))) ≠ .authorized b := by
  refine ⟨authMiddlewareJwt_sign secret now a, fun b hb hc => ?_⟩
  rw [authMiddlewareJwt_sign secret now a] at hc
  injection hc with h2
  exact hb h2.symm

/-- Witness for C2 at a concrete secret and pair of identifiers. -/
theorem c2_token_binding_witness :
    authMiddlewareJwt (jstr "s") 0
      (some (bearerScheme ++ encodeToken (jwtSign 1 (jstr "s")))) = .authorized 1 ∧
    authMiddlewareJwt (jstr "s") 0
      (some (bearerScheme ++ encodeToken (jwtSign 1 (jstr "s")))) ≠ .authorized 2 :=
  ⟨(c2_token_binding (jstr "s") 0 1).1,
   (c2_token_binding (jstr "s") 0 1).2 2 (by decide)⟩

/-- **C5**: a registration request missing any of name, email or password
is answered 400 with the validation message, and the store is returned
unchanged — no hash or insert is attempted. -/
theorem c5_register_validation (secret : JStr) (db : Db) (nm em pw : Option JStr)
    (h : nm = none ∨ em = none ∨ pw = none) :
    registerHandler secret db nm em pw =
      (msgResp 400 "Todos os campos são obrigatórios.", db) := by
  have hv : (!(truthy nm) || !(truthy em) || !(truthy pw)) = true := by
    rcases h with rfl | rfl | rfl <;> simp [truthy]
  rw [registerHandler, if_pos hv]

/-- Witness for C5: a request with no name, against a store with one user,
is rejected and the store is unchanged. -/
theorem c5_register_validation_witness :
    registerHandler (jstr "s")
      { users := [{ id := 0, name := jstr "A", email := jstr "a", password := jstr "h" }],
        favorites := [], nextId := 1, fault := none }
      none (some (jstr "a")) (some (jstr "p")) =
      (msgResp 400 "Todos os campos são obrigatórios.",
       { users := [{ id := 0, name := jstr "A", email := jstr "a", password := jstr "h" }],
         favorites := [], nextId := 1, fault := none }) :=
  c5_register_validation _ _ _ _ _ (Or.inl rfl)

/-- **C4**: for a login request with both fields present against a
responding store: an unknown email is answered 404; a known email with a
password that does not verify against the stored digest is answered 400;
a verifying password is answered 200 with message, token and userId. -/
theorem c4_login_cases (secret : JStr) (db : Db) (em pw : Option JStr)
    (hem : truthy em = true) (hpw : truthy pw = true) (hf : db.fault = none) :
    ((db.users.filter fun u => u.email = em.getD []).head? = none →
      loginHandler secret db em pw = (msgResp 404 "Usuário não encontrado.", db)) ∧
    (∀ user, (db.users.filter fun u => u.email = em.getD []).head? = some user →
      bcryptCompare (pw.getD []) user.password = false →
      loginHandler secret db em pw = (msgResp 400 "Senha incorreta.", db)) ∧
    (∀ user, (db.users.filter fun u => u.email = em.getD []).head? = some user →
      bcryptCompare (pw.getD []) user.password = true →
      loginHandler secret db em pw =
        ({ status := 200, body := .jsonMsg (jstr "Login bem-sucedido"),
           token := some (encodeToken (jwtSign user.id secret)),
           userId := some user.id, favorite := none }, db)) := by
  refine ⟨?_, ?_, ?_⟩
  · intro hh
    rw [loginHandler_of_store secret db em pw hem hpw hf, hh]
  · intro user hh hc
    rw [loginHandler_of_store secret db em pw hem hpw hf, hh]
    simp [hc]
  · intro user hh hc
    rw [loginHandler_of_store secret db em pw hem hpw hf, hh]
    simp [hc]

/-- A store holding one registered user, for the witnesses. -/
def dbOneUser : Db :=
  { users := [{ id := 0, name := jstr "A", email := jstr "a",
                password := bcryptHash (jstr "p") }],
    favorites := [], nextId := 1, fault := none }

/-- Witness for C4: the three login outcomes on a concrete store. -/
theorem c4_login_cases_witness :
    loginHandler (jstr "s") dbOneUser (some (jstr "b")) (some (jstr "p")) =
      (msgResp 404 "Usuário não encontrado.", dbOneUser) ∧
    loginHandler (jstr "s") dbOneUser (some (jstr "a")) (some (jstr "q")) =
      (msgResp 400 "Senha incorreta.", dbOneUser) ∧
    loginHandler (jstr "s") dbOneUser (some (jstr "a")) (some (jstr "p")) =
      ({ status := 200, body := .jsonMsg (jstr "Login bem-sucedido"),
         token := some (encodeToken (jwtSign 0 (jstr "s"))),
         userId := some 0, favorite := none }, dbOneUser) :=
  ⟨(c4_login_cases (jstr "s") dbOneUser (some (jstr "b")) (some (jstr "p"))
      (by decide) (by decide) rfl).1 (by decide),
   (c4_login_cases (jstr "s") dbOneUser (some (jstr "a")) (some (jstr "q"))
      (by decide) (by decide) rfl).2.1
     { id := 0, name := jstr "A", email := jstr "a", password := bcryptHash (jstr "p") }
     (by decide) (by decide),
   (c4_login_cases (jstr "s") dbOneUser (some (jstr "a")) (some (jstr "p"))
      (by decide) (by decide) rfl).2.2
     { id := 0, name := jstr "A", email := jstr "a", password := bcryptHash (jstr "p") }
     (by decide) (by decide)⟩

/-- **C3**: when registration answered with a userId, logging in with the
same email and password against the resulting store answers 200 with the
same userId and a token whose embedded userId claim equals it. -/
theorem c3_register_then_login (secret : JStr) (db : Db) (nm em pw : Option JStr)
    (a : Nat) (now : Nat)
    (hreg : ((registerHandler secret db nm em pw).1).userId = some a) :
    ((loginHandler secret ((registerHandler secret db nm em pw).2) em pw).1).status = 200 ∧
    ((loginHandler secret ((registerHandler secret db nm em pw).2) em pw).1).userId = some a ∧
    ∃ t, ((loginHandler secret ((registerHandler secret db nm em pw).2) em pw).1).token
        = some t ∧
      jwtVerifyStr t secret now = .ok { userId := a, exp := none } := by
  obtain ⟨h1, h2, h3, hf, hd, ha, heq⟩ := registerHandler_success secret db nm em pw a hreg
  subst ha
  have hdb2 : (registerHandler secret db nm em pw).2
      = registerSuccessDb db (nm.getD []) (em.getD []) (pw.getD []) := by rw [heq]
  rw [hdb2]
  have hnil : db.users.filter (fun u => u.email = em.getD []) = [] := by
    rw [List.filter_eq_nil_iff]
    intro u hu
    rw [List.any_eq_false] at hd
    have h5 := hd u hu
    simpa using h5
  have hfil : ((registerSuccessDb db (nm.getD []) (em.getD []) (pw.getD [])).users.filter
      fun u => u.email = em.getD []).head?
      = some (newUserRow db (nm.getD []) (em.getD []) (pw.getD [])) := by
    simp only [registerSuccessDb, List.filter_append, hnil, List.nil_append]
    simp [newUserRow]
  have hcmp : bcryptCompare (pw.getD [])
      (newUserRow db (nm.getD []) (em.getD []) (pw.getD [])).password = true := by
    simp [newUserRow, bcryptCompare]
  rw [loginHandler_of_store secret (registerSuccessDb db (nm.getD []) (em.getD []) (pw.getD []))
        em pw h2 h3 (by exact hf), hfil]
  simp only [hcmp]
  refine ⟨by simp, by simp [newUserRow], ?_⟩
  refine ⟨encodeToken (jwtSign db.nextId secret), by simp [newUserRow], ?_⟩
  exact jwtVerifyStr_sign db.nextId secret now

/-- An empty store, for the witnesses. -/
def db0 : Db := { users := [], favorites := [], nextId := 0, fault := none }

/-- Witness for C3: register then login on the empty store. -/
theorem c3_register_then_login_witness :
    ((loginHandler (jstr "s")
        ((registerHandler (jstr "s") db0 (some (jstr "A")) (some (jstr "a"))
          (some (jstr "p"))).2)
        (some (jstr "a")) (some (jstr "p"))).1).status = 200 ∧
    ((loginHandler (jstr "s")
        ((registerHandler (jstr "s") db0 (some (jstr "A")) (some (jstr "a"))
          (some (jstr "p"))).2)
        (some (jstr "a")) (some (jstr "p"))).1).userId = some 0 ∧
    ∃ t, ((loginHandler (jstr "s")
        ((registerHandler (jstr "s") db0 (some (jstr "A")) (some (jstr "a"))
          (some (jstr "p"))).2)
        (some (jstr "a")) (some (jstr "p"))).1).token = some t ∧
      jwtVerifyStr t (jstr "s") 9 = .ok { userId := 0, exp := none } :=
  c3_register_then_login (jstr "s") db0 (some (jstr "A")) (some (jstr "a"))
    (some (jstr "p")) 0 9 (by decide)

/-- If the register handler answered with a token, that token is the
serialisation of a no-expiry token signed for the store's next id. -/
theorem registerHandler_token_shape (secret : JStr) (db : Db) (nm em pw : Option JStr)
    (t : JStr) (h : ((registerHandler secret db nm em pw).1).token = some t) :
    t = encodeToken (jwtSign db.nextId secret) := by
  by_cases hv : (!(truthy nm) || !(truthy em) || !(truthy pw)) = true
  · rw [registerHandler, if_pos hv] at h
    simp [msgResp] at h
  · cases hf : db.fault with
    | some e =>
      have hrt : registerTry secret db (nm.getD []) (em.getD []) (pw.getD []) = .error e := by
        simp only [registerTry, insertUser, hf]
      rw [registerHandler, if_neg hv, hrt] at h
      simp [msgResp] at h
    | none =>
      cases hd : (db.users.any fun u => u.email = em.getD []) with
      | true =>
        have hrt : registerTry secret db (nm.getD []) (em.getD []) (pw.getD []) =
            .error dupEmailError := by
          simp only [registerTry, insertUser, hf, hd]
          simp
        rw [registerHandler, if_neg hv, hrt] at h
        simp [msgResp] at h
      | false =>
        have hrt := registerTry_of_fresh secret db (nm.getD []) (em.getD []) (pw.getD []) hf hd
        rw [registerHandler, if_neg hv, hrt] at h
        simpa [registerSuccessResp] using h.symm

/-- If the login handler answered with a token, that token is the
serialisation of a no-expiry token signed for some user id. -/
theorem loginHandler_token_shape (secret : JStr) (db : Db) (em pw : Option JStr)
    (t : JStr) (h : ((loginHandler secret db em pw).1).token = some t) :
    ∃ uid, t = encodeToken (jwtSign uid secret) := by
  by_cases hv : (!(truthy em) || !(truthy pw)) = true
  · rw [loginHandler, if_pos hv] at h
    simp [msgResp] at h
  · cases hf : db.fault with
    | some e =>
      have hlt : loginTry secret db (em.getD []) (pw.getD []) = .error e := by
        simp only [loginTry, runQuery, hf]
      rw [loginHandler, if_neg hv, hlt] at h
      simp [msgResp] at h
    | none =>
      have hv1 : truthy em = true ∧ truthy pw = true := by
        constructor
        · cases hb : truthy em with
          | true => rfl
          | false => exact absurd (by simp [hb]) hv
        · cases hb : truthy pw with
          | true => rfl
          | false => exact absurd (by simp [hb]) hv
      rw [loginHandler_of_store secret db em pw hv1.1 hv1.2 hf] at h
      cases hh : (db.users.filter fun u => u.email = em.getD []).head? with
      | none =>
        rw [hh] at h
        simp [msgResp] at h
      | some user =>
        rw [hh] at h
        by_cases hc : bcryptCompare (pw.getD []) user.password
        · simp only [hc] at h
          simp at h
          exact ⟨user.id, h.symm⟩
        · simp [hc, msgResp] at h

/-- **C6**: every token issued by the register and login handlers is signed
without an expiry claim: it decodes with `exp = none`, the Auth Gate
authorizes it, and it is never rejected by the expired-token branch. -/
theorem c6_tokens_never_expire (secret : JStr) (now : Nat) :
    (∀ db nm em pw t, ((registerHandler secret db nm em pw).1).token = some t →
      jwtVerifyStr t secret now = .ok { userId := db.nextId, exp := none } ∧
      authMiddlewareJwt secret now (some (bearerScheme ++ t)) = .authorized db.nextId ∧
      authMiddlewareJwt secret now (some (bearerScheme ++ t)) ≠
        .reject 401 (.jsonMsg (jstr "Token expirado."))) ∧
    (∀ db em pw t, ((loginHandler secret db em pw).1).token = some t →
      ∃ uid, jwtVerifyStr t secret now = .ok { userId := uid, exp := none } ∧
        authMiddlewareJwt secret now (some (bearerScheme ++ t)) = .authorized uid ∧
        authMiddlewareJwt secret now (some (bearerScheme ++ t)) ≠
          .reject 401 (.jsonMsg (jstr "Token expirado."))) := by
  constructor
  · intro db nm em pw t ht
    have hs := registerHandler_token_shape secret db nm em pw t ht
    subst hs
    refine ⟨jwtVerifyStr_sign _ _ _, authMiddlewareJwt_sign _ _ _, ?_⟩
    rw [authMiddlewareJwt_sign]
    intro hc
    exact AuthOutcome.noConfusion hc
  · intro db em pw t ht
    obtain ⟨uid, hs⟩ := loginHandler_token_shape secret db em pw t ht
    subst hs
    refine ⟨uid, jwtVerifyStr_sign _ _ _, authMiddlewareJwt_sign _ _ _, ?_⟩
    rw [authMiddlewareJwt_sign]
    intro hc
    exact AuthOutcome.noConfusion hc

/-- Witness for C6: the register conjunct at the empty store. -/
theorem c6_tokens_never_expire_witness :
    jwtVerifyStr (encodeToken (jwtSign 0 (jstr "s"))) (jstr "s") 5 =
      .ok { userId := 0, exp := none } ∧
    authMiddlewareJwt (jstr "s") 5
      (some (bearerScheme ++ encodeToken (jwtSign 0 (jstr "s")))) = .authorized 0 ∧
    authMiddlewareJwt (jstr "s") 5
      (some (bearerScheme ++ encodeToken (jwtSign 0 (jstr "s")))) ≠
      .reject 401 (.jsonMsg (jstr "Token expirado.")) :=
  (c6_tokens_never_expire (jstr "s") 5).1 db0 (some (jstr "A")) (some (jstr "a"))
    (some (jstr "p")) (encodeToken (jwtSign 0 (jstr "s"))) (by decide)

/-- **C8**: the string the middleware verifies is the part of the header
between the first and second space — `Bearer a b` has only `a` verified,
and `Bearer  x` (two spaces) is rejected as an empty token. -/
theorem c8_token_extraction :
    (∀ rest : JStr, extractedToken (bearerScheme ++ rest) =
      rest.takeWhile (fun c => c != ' ')) ∧
    (∀ verify, authMiddleware verify (some (jstr "Bearer a b")) =
      verifyOutcome verify (jstr "a")) ∧
    (∀ verify, authMiddleware verify (some (jstr "Bearer  x")) =
      .reject 400 (.jsonMsg (jstr "Token malformado."))) := by
  refine ⟨extractedToken_bearer, ?_, ?_⟩
  · intro verify
    have h1 : (jstr "Bearer a b").isEmpty = false := by decide
    have h2 : jsStartsWith (jstr "Bearer a b") bearerScheme = true := by decide
    have h3 : extractedToken (jstr "Bearer a b") = jstr "a" := by decide
    have h4 : (jstr "a").isEmpty = false := by decide
    simp only [authMiddleware, Option.getD_some, h1, h2, h3, h4]
    simp
  · intro verify
    have h1 : (jstr "Bearer  x").isEmpty = false := by decide
    have h2 : jsStartsWith (jstr "Bearer  x") bearerScheme = true := by decide
    have h3 : extractedToken (jstr "Bearer  x") = [] := by decide
    simp only [authMiddleware, Option.getD_some, h1, h2, h3]
    simp

/-- **C9**: every authenticated `DELETE /api/favorites/:id` request is
answered 500 with the generic message and leaves the store unchanged: the
query's parameter array references the undefined identifier `id`, so the
200 and 404 branches are unreachable and no favorite row is deleted. -/
theorem c9_delete_always_500 (db : Db) (userId : Nat) (paramId : JStr) :
    deleteFavoritesHandler db userId paramId =
      (msgResp 500 "Erro ao remover favorito.", db) := by
  have hl : jsLookup (deleteHandlerEnv paramId) "id" =
      .error { name := jstr "ReferenceError",
               message := ("id is not defined").toList } := by
    rfl
  have htry : deleteFavoritesTry db userId paramId =
      .error { name := jstr "ReferenceError",
               message := ("id is not defined").toList } := by
    rw [deleteFavoritesTry, hl]
  rw [deleteFavoritesHandler, htry]

/-- **C10**: an authenticated add-favorite request with both fields present
and no duplicate row is answered 500 with the store unchanged: the INSERT
names three target columns but supplies only two values, so it always
fails and the 201 branch is unreachable. -/
theorem c10_post_favorites_500 (db : Db) (userId : Nat) (nm pokeId : Option JStr)
    (hnm : truthy nm = true) (hpk : truthy pokeId = true) (hf : db.fault = none)
    (hdup : db.favorites.filter (fun f => f.userId = userId && f.name = nm.getD []) = []) :
    postFavoritesHandler db userId nm pokeId =
      (msgResp 500 "Erro ao adicionar favorito.", db) := by
  have htry : postFavoritesTry db userId (nm.getD []) =
      .error { name := jstr "error",
               message := jstr "INSERT has more target columns than expressions" } := by
    simp only [postFavoritesTry, runQuery, hf, hdup, pgInsertFavorite, favoritesInsertTargets]
    simp
  rw [postFavoritesHandler, if_neg (by simp [hnm, hpk]), htry]

/-- Witness for C10: a fresh favorite on the empty store still gets 500. -/
theorem c10_post_favorites_500_witness :
    postFavoritesHandler db0 3 (some (jstr "pikachu")) (some (jstr "25")) =
      (msgResp 500 "Erro ao adicionar favorito.", db0) :=
  c10_post_favorites_500 db0 3 (some (jstr "pikachu")) (some (jstr "25"))
    (by decide) (by decide) rfl (by decide)

/-- Any successful register try answers with the fixed success message. -/
theorem registerTry_ok_body {secret : JStr} {db : Db} {nm em pw : JStr} {r : Resp × Db}
    (h : registerTry secret db nm em pw = .ok r) :
    r.1.body = .jsonMsg (jstr "Usuário registrado com sucesso") := by
  simp only [registerTry] at h
  split at h
  · exact Except.noConfusion h
  · injection h with h1
    subst h1
    rfl

/-- Any successful login try answers with one of the fixed messages. -/
theorem loginTry_ok_body {secret : JStr} {db : Db} {em pw : JStr} {r : Resp × Db}
    (h : loginTry secret db em pw = .ok r) :
    ∃ m, r.1.body = .jsonMsg m := by
  simp only [loginTry] at h
  split at h
  · exact Except.noConfusion h
  · split at h
    · injection h with h1
      subst h1
      exact ⟨_, rfl⟩
    · split at h
      · injection h with h1
        subst h1
        exact ⟨_, rfl⟩
      · injection h with h1
        subst h1
        exact ⟨_, rfl⟩

/-- Any successful add-favorite try answers with one of the fixed
messages. -/
theorem postFavoritesTry_ok_body {db : Db} {userId : Nat} {nm : JStr} {r : Resp × Db}
    (h : postFavoritesTry db userId nm = .ok r) :
    ∃ m, r.1.body = .jsonMsg m := by
  simp only [postFavoritesTry] at h
  split at h
  · exact Except.noConfusion h
  · split at h
    · injection h with h1
      subst h1
      exact ⟨_, rfl⟩
    · split at h
      · exact Except.noConfusion h
      · injection h with h1
        subst h1
        exact ⟨_, rfl⟩

/-- Any successful delete-favorite try answers with one of the fixed
messages. -/
theorem deleteFavoritesTry_ok_body {db : Db} {userId : Nat} {paramId : JStr} {r : Resp × Db}
    (h : deleteFavoritesTry db userId paramId = .ok r) :
    ∃ m, r.1.body = .jsonMsg m := by
  simp only [deleteFavoritesTry] at h
  split at h
  · exact Except.noConfusion h
  · split at h
    · exact Except.noConfusion h
    · split at h
      · injection h with h1
        subst h1
        exact ⟨_, rfl⟩
      · injection h with h1
        subst h1
        exact ⟨_, rfl⟩

/-- The register handler's body is always a fixed message string. -/
theorem registerHandler_body (secret : JStr) (db : Db) (nm em pw : Option JStr) :
    ∃ m, ((registerHandler secret db nm em pw).1).body = .jsonMsg m := by
  rw [registerHandler]
  split
  · exact ⟨_, rfl⟩
  · split
    · exact ⟨_, rfl⟩
    · rename_i r heq
      exact ⟨_, registerTry_ok_body heq⟩

/-- The login handler's body is always a fixed message string. -/
theorem loginHandler_body (secret : JStr) (db : Db) (em pw : Option JStr) :
    ∃ m, ((loginHandler secret db em pw).1).body = .jsonMsg m := by
  rw [loginHandler]
  split
  · exact ⟨_, rfl⟩
  · split
    · exact ⟨_, rfl⟩
    · rename_i r heq
      exact loginTry_ok_body heq

/-- The add-favorite handler's body is always a fixed message string. -/
theorem postFavoritesHandler_body (db : Db) (userId : Nat) (nm pokeId : Option JStr) :
    ∃ m, ((postFavoritesHandler db userId nm pokeId).1).body = .jsonMsg m := by
  rw [postFavoritesHandler]
  split
  · exact ⟨_, rfl⟩
  · split
    · exact ⟨_, rfl⟩
    · rename_i r heq
      exact postFavoritesTry_ok_body heq

/-- The delete-favorite handler's body is always a fixed message string. -/
theorem deleteFavoritesHandler_body (db : Db) (userId : Nat) (paramId : JStr) :
    ∃ m, ((deleteFavoritesHandler db userId paramId).1).body = .jsonMsg m := by
  rw [deleteFavoritesHandler]
  split
  · exact ⟨_, rfl⟩
  · rename_i r heq
    exact deleteFavoritesTry_ok_body heq

/-- **C7**: every error thrown inside the register or login try block is
caught and answered 500 with the fixed generic message and the store
unchanged; every handler body is a fixed message string, never an error
object; and the only response whose body carries a raw error object is the
Auth Gate's non-expired 401, which echoes the verification error. -/
theorem c7_error_propagation :
    (∀ secret db nm em pw e, truthy nm = true → truthy em = true → truthy pw = true →
      registerTry secret db (nm.getD []) (em.getD []) (pw.getD []) = .error e →
      registerHandler secret db nm em pw =
        (msgResp 500 "Erro ao registrar usuário.", db)) ∧
    (∀ secret db em pw e, truthy em = true → truthy pw = true →
      loginTry secret db (em.getD []) (pw.getD []) = .error e →
      loginHandler secret db em pw = (msgResp 500 "Erro ao fazer login.", db)) ∧
    (∀ secret db nm em pw, ∃ m,
      ((registerHandler secret db nm em pw).1).body = .jsonMsg m) ∧
    (∀ secret db em pw, ∃ m, ((loginHandler secret db em pw).1).body = .jsonMsg m) ∧
    (∀ db userId nm pokeId, ∃ m,
      ((postFavoritesHandler db userId nm pokeId).1).body = .jsonMsg m) ∧
    (∀ db userId paramId, ∃ m,
      ((deleteFavoritesHandler db userId paramId).1).body = .jsonMsg m) ∧
    (∀ verify header st e,
      authMiddleware verify header = .reject st (.jsonErr e) →
      st = 401 ∧ e.name ≠ jstr "TokenExpiredError" ∧
      verify (extractedToken (header.getD [])) = .error e) := by
  refine ⟨?_, ?_, registerHandler_body, loginHandler_body, postFavoritesHandler_body,
    deleteFavoritesHandler_body, ?_⟩
  · intro secret db nm em pw e h1 h2 h3 htry
    rw [registerHandler, if_neg (by simp [h1, h2, h3]), htry]
  · intro secret db em pw e h1 h2 htry
    rw [loginHandler, if_neg (by simp [h1, h2]), htry]
  · intro verify header st e hmid
    simp only [authMiddleware] at hmid
    split at hmid
    · injection hmid with ha hb
      exact RespBody.noConfusion hb
    · split at hmid
      · injection hmid with ha hb
        exact RespBody.noConfusion hb
      · split at hmid
        · injection hmid with ha hb
          exact RespBody.noConfusion hb
        · simp only [verifyOutcome] at hmid
          split at hmid
          · exact AuthOutcome.noConfusion hmid
          · rename_i e2 heq
            split at hmid
            · injection hmid with ha hb
              exact RespBody.noConfusion hb
            · rename_i hne
              injection hmid with ha hb
              injection hb with hbe
              subst hbe
              exact ⟨ha.symm, hne, heq⟩

/-- A store whose pool throws on every query, for the witnesses. -/
def faultyDb : Db :=
  { users := [], favorites := [], nextId := 0,
    fault := some { name := jstr "error", message := jstr "connection terminated" } }

/-- Witness for C7: a store failure during register and login, and the
middleware's echoed error object on an invalid token. -/
theorem c7_error_propagation_witness :
    registerHandler (jstr "s") faultyDb (some (jstr "A")) (some (jstr "a"))
      (some (jstr "p")) = (msgResp 500 "Erro ao registrar usuário.", faultyDb) ∧
    loginHandler (jstr "s") faultyDb (some (jstr "a")) (some (jstr "p")) =
      (msgResp 500 "Erro ao fazer login.", faultyDb) ∧
    (401 = 401 ∧ jwtMalformedError.name ≠ jstr "TokenExpiredError" ∧
      failVerify (extractedToken ((some (jstr "Bearer x")).getD [])) =
        .error jwtMalformedError) :=
  ⟨c7_error_propagation.1 (jstr "s") faultyDb (some (jstr "A")) (some (jstr "a"))
      (some (jstr "p")) { name := jstr "error", message := jstr "connection terminated" }
      (by decide) (by decide) (by decide) rfl,
   c7_error_propagation.2.1 (jstr "s") faultyDb (some (jstr "a")) (some (jstr "p"))
      { name := jstr "error", message := jstr "connection terminated" }
      (by decide) (by decide) rfl,
   c7_error_propagation.2.2.2.2.2.2 failVerify (some (jstr "Bearer x")) 401
      jwtMalformedError (by decide)⟩
